import Mathlib

/-!
Verification of the facebook-scraper backend against its specification.

The Python subsystems under study are shallowly embedded below:
the alert-matching engine (`alert_matcher.py`), the three token-bucket
rate limiters (scraper `rate_limiter.py`, API middleware `rate_limit.py`,
shared `rate_limit.py`), the WebSocket broadcaster (`manager.py`) and the
Kafka consumer manager (`kafka_consumer.py`).  Numeric quantities that the
source keeps as Python floats are modelled as exact rationals; dictionaries
become association lists; exceptions become `Except`.
-/

/-- Models Python's substring test `needle in hay` over characters. -/
def pyIn (needle hay : String) : Bool :=
  (List.range (hay.length + 1)).any fun i =>
    (hay.toList.drop i).take needle.length == needle.toList

/-- Models Python's `str.split()` with no arguments: split on whitespace,
dropping empty fragments. -/
def pySplitWs (s : String) : List String :=
  (s.split Char.isWhitespace).filter fun w => w ≠ ""

namespace AlertMatcher

/-- The listing fields read by `AlertMatcher._check_alert_match`.
`suggested_category` stands for `listing["analysis"]["category"]["suggested_category"]`
and `keywords` for `listing["analysis"]["keywords"]`; absent dict keys are `none`
(`Option.getD` mirrors each `.get(key, default)` in the source). -/
structure Listing where
  price : Option ℚ
  category : Option String
  title : Option String
  description : Option String
  location : Option String
  suggested_category : Option String
  keywords : List String

/-- The alert fields read by `AlertMatcher._check_alert_match`. -/
structure Alert where
  id : Nat
  user_id : String
  search_term : Option String
  category : Option String
  min_price : Option ℚ
  max_price : Option ℚ
  location : Option String

/-- The `min_price` block of `_check_alert_match`: the pair of labels this
block appends to `matches` (first component) and `non_matches` (second). -/
def min_price_parts (listing : Listing) (alert : Alert) : List String × List String :=
  match alert.min_price with
  | none => ([], [])
  | some mp =>
    match listing.price with
    | some p => if mp ≤ p then (["min_price"], []) else ([], ["min_price"])
    | none => ([], ["min_price"])

/-- The `max_price` block of `_check_alert_match`. -/
def max_price_parts (listing : Listing) (alert : Alert) : List String × List String :=
  match alert.max_price with
  | none => ([], [])
  | some mp =>
    match listing.price with
    | some p => if p ≤ mp then (["max_price"], []) else ([], ["max_price"])
    | none => ([], ["max_price"])

/-- The `category` block of `_check_alert_match`; the `s != ""` conjunct models
Python's truthiness test `if suggested` on the suggested-category string. -/
def category_parts (listing : Listing) (alert : Alert) : List String × List String :=
  match alert.category with
  | none => ([], [])
  | some ac =>
    if (match listing.category with
        | some lc => ac.toLower == lc.toLower
        | none => false) then
      (["category"], [])
    else if (match listing.suggested_category with
        | some s => s != "" && ac.toLower == s.toLower
        | none => false) then
      (["suggested_category"], [])
    else
      ([], ["category"])

/-- The `search_term` block of `_check_alert_match`: exact substring tier,
then majority-of-words tier (strict `>` against half the word count, computed
with exact arithmetic as the source computes with float division), then
enrichment-keyword tier. -/
def search_term_parts (listing : Listing) (alert : Alert) : List String × List String :=
  match alert.search_term with
  | none => ([], [])
  | some st =>
    let title := (listing.title.getD "").toLower
    let description := (listing.description.getD "").toLower
    let search_term := st.toLower
    if pyIn search_term title || pyIn search_term description then
      (["search_term_exact"], [])
    else
      let search_words := pySplitWs search_term
      let matching_words := search_words.countP fun w => pyIn w title || pyIn w description
      if ((matching_words : ℚ) > (search_words.length : ℚ) / 2) then
        (["search_term_partial"], [])
      else if listing.keywords.any (fun w => pyIn w search_term) then
        (["search_term_keyword"], [])
      else
        ([], ["search_term"])

/-- The `location` block of `_check_alert_match`: case-insensitive
bidirectional substring containment. -/
def location_parts (listing : Listing) (alert : Alert) : List String × List String :=
  match alert.location with
  | none => ([], [])
  | some al =>
    match listing.location with
    | some ll =>
      let alert_location := al.toLower
      let listing_location := ll.toLower
      if pyIn alert_location listing_location || pyIn listing_location alert_location then
        (["location"], [])
      else
        ([], ["location"])
    | none => ([], ["location"])

/-- Result dictionary of `_check_alert_match`. -/
structure MatchCheck where
  is_match : Bool
  reason : String
  matching_criteria : List String
  non_matching_criteria : List String
deriving Repr, DecidableEq

/-- `AlertMatcher._check_alert_match`: runs the five criterion blocks in source
order, accumulating `matches` and `non_matches`, and declares a match iff
`len(non_matches) == 0 and len(matches) > 0`. -/
def check_alert_match (listing : Listing) (alert : Alert) : MatchCheck :=
  let p1 := min_price_parts listing alert
  let p2 := max_price_parts listing alert
  let p3 := category_parts listing alert
  let p4 := search_term_parts listing alert
  let p5 := location_parts listing alert
  let matchList := p1.1 ++ p2.1 ++ p3.1 ++ p4.1 ++ p5.1
  let nonMatchList := p1.2 ++ p2.2 ++ p3.2 ++ p4.2 ++ p5.2
  let is_match := nonMatchList.length == 0 && decide (0 < matchList.length)
  { is_match := is_match
    reason :=
      if is_match then String.intercalate ", " matchList
      else "Failed to match on: " ++ String.intercalate ", " nonMatchList
    matching_criteria := matchList
    non_matching_criteria := nonMatchList }

/-- Spec-side pass condition for a specified `min_price` criterion. -/
def min_price_pass (listing : Listing) (mp : ℚ) : Bool :=
  match listing.price with
  | some p => decide (mp ≤ p)
  | none => false

/-- Spec-side pass condition for a specified `max_price` criterion. -/
def max_price_pass (listing : Listing) (mp : ℚ) : Bool :=
  match listing.price with
  | some p => decide (p ≤ mp)
  | none => false

/-- Spec-side pass condition for a specified `category` criterion: direct
case-insensitive equality, or equality with the enrichment-suggested category. -/
def category_pass (listing : Listing) (ac : String) : Bool :=
  (match listing.category with
   | some lc => ac.toLower == lc.toLower
   | none => false) ||
  (match listing.suggested_category with
   | some s => s != "" && ac.toLower == s.toLower
   | none => false)

/-- Spec tier (1): the term is a case-insensitive substring of title or
description. -/
def term_exact_tier (listing : Listing) (st : String) : Bool :=
  pyIn st.toLower (listing.title.getD "").toLower ||
    pyIn st.toLower (listing.description.getD "").toLower

/-- Spec tier (2): strictly more than half of the term's whitespace-split
words each appear in title or description (case-insensitively). -/
def term_majority_tier (listing : Listing) (st : String) : Bool :=
  let ws := pySplitWs st.toLower
  ((ws.countP fun w =>
      pyIn w (listing.title.getD "").toLower ||
        pyIn w (listing.description.getD "").toLower : ℚ) >
    (ws.length : ℚ) / 2)

/-- Spec tier (3): some enrichment keyword of the listing is a substring of
the term. -/
def term_keyword_tier (listing : Listing) (st : String) : Bool :=
  listing.keywords.any fun w => pyIn w st.toLower

/-- Spec-side pass condition for a specified `search_term` criterion, written
as the claim's three ordered tiers. -/
def search_term_tiers (listing : Listing) (st : String) : Bool :=
  if term_exact_tier listing st then true
  else if term_majority_tier listing st then true
  else if term_keyword_tier listing st then true
  else false

/-- Spec-side pass condition for a specified `location` criterion. -/
def location_pass (listing : Listing) (al : String) : Bool :=
  match listing.location with
  | some ll => pyIn al.toLower ll.toLower || pyIn ll.toLower al.toLower
  | none => false

/-- The alert specifies at least one of the five criteria. -/
def specifies_any (alert : Alert) : Bool :=
  alert.min_price.isSome || alert.max_price.isSome || alert.category.isSome ||
    alert.search_term.isSome || alert.location.isSome

/-- Every criterion the alert specifies individually passes (vacuously true
for unspecified criteria). -/
def all_specified_pass (listing : Listing) (alert : Alert) : Bool :=
  (match alert.min_price with | some mp => min_price_pass listing mp | none => true) &&
  (match alert.max_price with | some mp => max_price_pass listing mp | none => true) &&
  (match alert.category with | some ac => category_pass listing ac | none => true) &&
  (match alert.search_term with | some st => search_term_tiers listing st | none => true) &&
  (match alert.location with | some al => location_pass listing al | none => true)

theorem list_isEmpty_append {α : Type} (l l' : List α) :
    (l ++ l').isEmpty = (l.isEmpty && l'.isEmpty) := by
  cases l <;> simp

theorem list_length_beq_zero {α : Type} (l : List α) :
    (l.length == 0) = l.isEmpty := by
  cases l <;> rfl

theorem list_zero_lt_length {α : Type} (l : List α) :
    decide (0 < l.length) = !l.isEmpty := by
  cases l <;> simp

theorem min_price_parts_snd (listing : Listing) (alert : Alert) :
    (min_price_parts listing alert).2.isEmpty =
      (match alert.min_price with
       | some mp => min_price_pass listing mp
       | none => true) := by
  rcases alert with ⟨_, _, _, _, minp, _, _⟩
  rcases listing with ⟨pr, _, _, _, _, _, _⟩
  rcases minp with _ | mp <;> rcases pr with _ | p <;>
    simp only [min_price_parts, min_price_pass] <;> (try split_ifs) <;> simp_all

theorem min_price_parts_fst (listing : Listing) (alert : Alert) :
    (!(min_price_parts listing alert).1.isEmpty) =
      (alert.min_price.isSome &&
        (match alert.min_price with
         | some mp => min_price_pass listing mp
         | none => true)) := by
  rcases alert with ⟨_, _, _, _, minp, _, _⟩
  rcases listing with ⟨pr, _, _, _, _, _, _⟩
  rcases minp with _ | mp <;> rcases pr with _ | p <;>
    simp only [min_price_parts, min_price_pass] <;> (try split_ifs) <;> simp_all

theorem max_price_parts_snd (listing : Listing) (alert : Alert) :
    (max_price_parts listing alert).2.isEmpty =
      (match alert.max_price with
       | some mp => max_price_pass listing mp
       | none => true) := by
  rcases alert with ⟨_, _, _, _, _, maxp, _⟩
  rcases listing with ⟨pr, _, _, _, _, _, _⟩
  rcases maxp with _ | mp <;> rcases pr with _ | p <;>
    simp only [max_price_parts, max_price_pass] <;> (try split_ifs) <;> simp_all

theorem max_price_parts_fst (listing : Listing) (alert : Alert) :
    (!(max_price_parts listing alert).1.isEmpty) =
      (alert.max_price.isSome &&
        (match alert.max_price with
         | some mp => max_price_pass listing mp
         | none => true)) := by
  rcases alert with ⟨_, _, _, _, _, maxp, _⟩
  rcases listing with ⟨pr, _, _, _, _, _, _⟩
  rcases maxp with _ | mp <;> rcases pr with _ | p <;>
    simp only [max_price_parts, max_price_pass] <;> (try split_ifs) <;> simp_all

theorem category_parts_snd (listing : Listing) (alert : Alert) :
    (category_parts listing alert).2.isEmpty =
      (match alert.category with
       | some ac => category_pass listing ac
       | none => true) := by
  rcases alert with ⟨_, _, _, cat, _, _, _⟩
  rcases cat with _ | ac <;>
    simp only [category_parts, category_pass] <;> (try split_ifs) <;> simp_all

theorem category_parts_fst (listing : Listing) (alert : Alert) :
    (!(category_parts listing alert).1.isEmpty) =
      (alert.category.isSome &&
        (match alert.category with
         | some ac => category_pass listing ac
         | none => true)) := by
  rcases alert with ⟨_, _, _, cat, _, _, _⟩
  rcases cat with _ | ac <;>
    simp only [category_parts, category_pass] <;> (try split_ifs) <;> simp_all

theorem search_term_parts_snd (listing : Listing) (alert : Alert) :
    (search_term_parts listing alert).2.isEmpty =
      (match alert.search_term with
       | some st => search_term_tiers listing st
       | none => true) := by
  rcases alert with ⟨_, _, st, _, _, _, _⟩
  rcases st with _ | s <;>
    simp only [search_term_parts, search_term_tiers, term_exact_tier,
      term_majority_tier, term_keyword_tier] <;> (try split_ifs) <;> simp_all <;> linarith

theorem search_term_parts_fst (listing : Listing) (alert : Alert) :
    (!(search_term_parts listing alert).1.isEmpty) =
      (alert.search_term.isSome &&
        (match alert.search_term with
         | some st => search_term_tiers listing st
         | none => true)) := by
  rcases alert with ⟨_, _, st, _, _, _, _⟩
  rcases st with _ | s <;>
    simp only [search_term_parts, search_term_tiers, term_exact_tier,
      term_majority_tier, term_keyword_tier] <;> (try split_ifs) <;> simp_all <;> linarith

theorem location_parts_snd (listing : Listing) (alert : Alert) :
    (location_parts listing alert).2.isEmpty =
      (match alert.location with
       | some al => location_pass listing al
       | none => true) := by
  rcases alert with ⟨_, _, _, _, _, _, loc⟩
  rcases listing with ⟨_, _, _, _, ll, _, _⟩
  rcases loc with _ | al <;> rcases ll with _ | l <;>
    simp only [location_parts, location_pass] <;> (try split_ifs) <;> simp_all

theorem location_parts_fst (listing : Listing) (alert : Alert) :
    (!(location_parts listing alert).1.isEmpty) =
      (alert.location.isSome &&
        (match alert.location with
         | some al => location_pass listing al
         | none => true)) := by
  rcases alert with ⟨_, _, _, _, _, _, loc⟩
  rcases listing with ⟨_, _, _, _, ll, _, _⟩
  rcases loc with _ | al <;> rcases ll with _ | l <;>
    simp only [location_parts, location_pass] <;> (try split_ifs) <;> simp_all

theorem bool_conjunction_agg : ∀ s1 s2 s3 s4 s5 p1 p2 p3 p4 p5 : Bool,
    (((((p1 && p2) && p3) && p4) && p5) &&
      (((((s1 && p1) || (s2 && p2)) || (s3 && p3)) || (s4 && p4)) || (s5 && p5))) =
    (((((s1 || s2) || s3) || s4) || s5) && ((((p1 && p2) && p3) && p4) && p5)) := by
  decide

theorem check_alert_match_is_match_eq (listing : Listing) (alert : Alert) :
    (check_alert_match listing alert).is_match =
      (((min_price_parts listing alert).2 ++ (max_price_parts listing alert).2 ++
        (category_parts listing alert).2 ++ (search_term_parts listing alert).2 ++
        (location_parts listing alert).2).length == 0 &&
       decide (0 < ((min_price_parts listing alert).1 ++ (max_price_parts listing alert).1 ++
        (category_parts listing alert).1 ++ (search_term_parts listing alert).1 ++
        (location_parts listing alert).1).length)) := rfl

/-- C1: `_check_alert_match` reports a match iff the alert specifies at least
one of the five criteria and every criterion it specifies individually passes;
in particular an alert with no criteria set never matches. -/
theorem alert_match_iff_some_criterion_and_all_pass (listing : Listing) (alert : Alert) :
    (check_alert_match listing alert).is_match =
      (specifies_any alert && all_specified_pass listing alert) := by
  rw [check_alert_match_is_match_eq, list_length_beq_zero, list_zero_lt_length,
    list_isEmpty_append, list_isEmpty_append, list_isEmpty_append, list_isEmpty_append,
    list_isEmpty_append, list_isEmpty_append, list_isEmpty_append, list_isEmpty_append]
  simp only [Bool.not_and]
  rw [min_price_parts_snd, max_price_parts_snd, category_parts_snd,
    search_term_parts_snd, location_parts_snd,
    min_price_parts_fst, max_price_parts_fst, category_parts_fst,
    search_term_parts_fst, location_parts_fst]
  exact bool_conjunction_agg _ _ _ _ _ _ _ _ _ _

/-- C5: for an alert that specifies a search term, the `search_term` block of
`_check_alert_match` resolves exactly per the three ordered tiers: exact
case-insensitive substring, else strict majority of the term's whitespace-split
words appearing in title/description, else some enrichment keyword being a
substring of the term; otherwise the criterion fails. -/
theorem search_term_criterion_three_tiers (listing : Listing) (alert : Alert) (st : String)
    (h : alert.search_term = some st) :
    search_term_parts listing alert =
      (if term_exact_tier listing st then (["search_term_exact"], [])
       else if term_majority_tier listing st then (["search_term_partial"], [])
       else if term_keyword_tier listing st then (["search_term_keyword"], [])
       else ([], ["search_term"])) := by
  unfold search_term_parts
  rw [h]
  simp only [term_exact_tier, term_majority_tier, term_keyword_tier]
  (try split_ifs) <;> simp_all <;> linarith

/-- Witness for C5 at alert 3 of `_get_alerts_from_db` ("iphone") against a
listing titled "iPhone 13 Pro": tier (1) fires. -/
theorem search_term_criterion_three_tiers_witness :
    search_term_parts
      { price := some 700, category := none, title := some "iPhone 13 Pro",
        description := some "lightly used", location := some "Los Angeles",
        suggested_category := none, keywords := [] }
      { id := 3, user_id := "00000000-0000-0000-0000-000000000003",
        search_term := some "iphone", category := none, min_price := none,
        max_price := none, location := some "Los Angeles" } =
      (if term_exact_tier
          { price := some 700, category := none, title := some "iPhone 13 Pro",
            description := some "lightly used", location := some "Los Angeles",
            suggested_category := none, keywords := [] } "iphone" then
        (["search_term_exact"], [])
       else if term_majority_tier
          { price := some 700, category := none, title := some "iPhone 13 Pro",
            description := some "lightly used", location := some "Los Angeles",
            suggested_category := none, keywords := [] } "iphone" then
        (["search_term_partial"], [])
       else if term_keyword_tier
          { price := some 700, category := none, title := some "iPhone 13 Pro",
            description := some "lightly used", location := some "Los Angeles",
            suggested_category := none, keywords := [] } "iphone" then
        (["search_term_keyword"], [])
       else ([], ["search_term"])) :=
  search_term_criterion_three_tiers _ _ "iphone" rfl

/-- One matching-alert entry produced by `find_matches`. -/
structure MatchEntry where
  alert_id : Nat
  user_id : String
  reason : String
  alert : Alert

/-- The body of `find_matches` inside its `try`: fetch the active alerts
(`_get_alerts_from_db`, which may raise) and fold the listing through
`_check_alert_match` for each alert in order, collecting matches.  The checker
is passed as an `Except`-valued function because in Python each evaluation may
itself raise. -/
def find_matches_body (get_alerts : Except String (List Alert))
    (check : Listing → Alert → Except String MatchCheck)
    (listing : Listing) : Except String (List MatchEntry) := do
  let alerts ← get_alerts
  alerts.foldlM (fun acc alert => do
    let r ← check listing alert
    pure (if r.is_match then
            acc ++ [{ alert_id := alert.id, user_id := alert.user_id,
                      reason := r.reason, alert := alert }]
          else acc)) []

/-- The checker actually installed in the source: `_check_alert_match`, which
never raises in this embedding. -/
def check_alert_match_exc (listing : Listing) (alert : Alert) : Except String MatchCheck :=
  .ok (check_alert_match listing alert)

/-- `AlertMatcher.find_matches`: the whole body runs inside
`try: ... except Exception: return []`. -/
def find_matches (get_alerts : Except String (List Alert))
    (check : Listing → Alert → Except String MatchCheck)
    (listing : Listing) : List MatchEntry :=
  match find_matches_body get_alerts check listing with
  | .ok ms => ms
  | .error _ => []

/-- C10: `find_matches` never raises — whenever its body raises (fetching the
alerts or evaluating a match), the exception is caught at the `find_matches`
boundary and the call returns `[]`, discarding any partial results. -/
theorem find_matches_swallows_errors (get_alerts : Except String (List Alert))
    (check : Listing → Alert → Except String MatchCheck)
    (listing : Listing) (e : String)
    (h : find_matches_body get_alerts check listing = .error e) :
    find_matches get_alerts check listing = [] := by
  unfold find_matches
  rw [h]

/-- Witness for C10: the alert fetch raises and `find_matches` returns `[]`. -/
theorem find_matches_swallows_errors_witness :
    find_matches (.error "database unavailable") check_alert_match_exc
      { price := some 500, category := some "furniture", title := some "Leather sofa",
        description := none, location := none, suggested_category := none,
        keywords := [] } = [] :=
  find_matches_swallows_errors _ _ _ "database unavailable" rfl

end AlertMatcher

/-- Replace (or insert) the binding of `k` in an association list, modelling
Python's `d[k] = v`. -/
def setKey {α : Type} (d : List (String × α)) (k : String) (v : α) : List (String × α) :=
  match d with
  | [] => [(k, v)]
  | (k', v') :: rest => if k' == k then (k, v) :: rest else (k', v') :: setKey rest k v

namespace ApiMiddleware

/-- The API middleware `RateLimiter` (`middleware/rate_limit.py`).  The
`tokens` dict maps `client_id` to `(last_updated, tokens)`; Python floats are
modelled as rationals, the integer constructor arguments live in the fields as
rationals because all further arithmetic on them is real-valued. -/
structure RateLimiter where
  rate : ℚ
  per : ℚ
  burst : ℚ
  tokens : List (String × (ℚ × ℚ))

/-- `RateLimiter.__init__(rate, per, burst=1)`: stores the three integers and
an empty per-client dict.  The source performs no validation and cannot fail,
so the constructor always returns `.ok`. -/
def mk_rate_limiter (rate per burst : ℤ) : Except String RateLimiter :=
  .ok { rate := (rate : ℚ), per := (per : ℚ), burst := (burst : ℚ), tokens := [] }

/-- `RateLimiter.is_allowed(client_id)` at clock value `now`: lazily creates
state for an unseen key at full burst capacity (returning `True` without
deducting), otherwise refills `elapsed * rate / per` tokens capped at `burst`
and either consumes one token (`True`) or stores the refilled count (`False`). -/
def is_allowed (rl : RateLimiter) (client_id : String) (now : ℚ) : Bool × RateLimiter :=
  match rl.tokens.lookup client_id with
  | none => (true, { rl with tokens := setKey rl.tokens client_id (now, rl.burst) })
  | some (last_updated, tokens) =>
    let time_passed := now - last_updated
    let token_refill := time_passed * (rl.rate / rl.per)
    let new_tokens := min rl.burst (tokens + token_refill)
    if 1 ≤ new_tokens then
      (true, { rl with tokens := setKey rl.tokens client_id (now, new_tokens - 1) })
    else
      (false, { rl with tokens := setKey rl.tokens client_id (now, new_tokens) })

/-- `RateLimiter.get_retry_after(client_id)`: `0` for an unseen key, else
`(1 - tokens) * per / rate` from the stored token count.  The method body only
reads `self`, so the state component of the result is the input state. -/
def get_retry_after (rl : RateLimiter) (client_id : String) : ℚ × RateLimiter :=
  match rl.tokens.lookup client_id with
  | none => (0, rl)
  | some (_, tokens) =>
    let tokens_needed := 1 - tokens
    (tokens_needed * rl.per / rl.rate, rl)

/-- `n` consecutive `is_allowed` calls for one client at a fixed clock value,
returning the list of results. -/
def run_is_allowed (rl : RateLimiter) (client_id : String) (now : ℚ) : Nat → List Bool × RateLimiter
  | 0 => ([], rl)
  | n + 1 =>
    let r := is_allowed rl client_id now
    let rest := run_is_allowed r.2 client_id now n
    (r.1 :: rest.1, rest.2)

end ApiMiddleware

namespace Scraper

/-- The scraper `RateLimiter` (`utils/rate_limiter.py`). -/
structure RateLimiter where
  requests_per_second : ℚ
  burst_size : ℚ
  tokens : ℚ
  last_refill_time : ℚ

/-- `RateLimiter.__init__(requests_per_second, burst_size=None)` at monotonic
clock `now`: burst defaults to `max(2, int(2 * requests_per_second))` (for the
defaulted case `int` truncation and `⌊⌋` agree: they differ only on negative
arguments, where `max 2` absorbs both).  The bucket starts full.  No
validation is performed, so construction always returns `.ok`. -/
def mk_rate_limiter (requests_per_second : ℚ) (burst_size : Option ℤ) (now : ℚ) :
    Except String RateLimiter :=
  let b : ℚ := match burst_size with
    | some b => (b : ℚ)
    | none => ((max 2 ⌊2 * requests_per_second⌋ : ℤ) : ℚ)
  .ok { requests_per_second := requests_per_second, burst_size := b,
        tokens := b, last_refill_time := now }

/-- The state update and computed sleep of `RateLimiter.wait()` at clock `now`:
refill `time_passed * requests_per_second` capped at `burst_size`; with at
least one token, consume it and sleep `0`; otherwise zero the bucket, advance
`last_refill_time` by the computed wait and sleep `(1 - tokens)/rate`. -/
def wait (rl : RateLimiter) (now : ℚ) : RateLimiter × ℚ :=
  let time_passed := now - rl.last_refill_time
  let new_tokens := time_passed * rl.requests_per_second
  let tokens1 := min (rl.tokens + new_tokens) rl.burst_size
  if 1 ≤ tokens1 then
    ({ rl with tokens := tokens1 - 1, last_refill_time := now }, 0)
  else
    let wait_time := (1 - tokens1) / rl.requests_per_second
    ({ rl with tokens := 0, last_refill_time := now + wait_time }, wait_time)

/-- A sequence of `wait` calls, the `k`-th arriving `e_k ≥ 0` seconds of
elapsed clock after the stored `last_refill_time`. -/
def run_wait (rl : RateLimiter) (es : List ℚ) : RateLimiter :=
  es.foldl (fun s e => (wait s (s.last_refill_time + e)).1) rl

end Scraper

namespace SharedUtils

/-- The shared token-bucket `RateLimiter` dataclass (`shared/utils/rate_limit.py`). -/
structure RateLimiter where
  rate : ℚ
  max_tokens : ℤ
  tokens : ℚ
  last_refill : ℚ

/-- Dataclass construction followed by `__post_init__` at clock `now`: the
bucket starts at `max_tokens` with `last_refill = now`.  `__post_init__`
performs no validation, so construction always returns `.ok`. -/
def mk_rate_limiter (rate : ℚ) (max_tokens : ℤ) (now : ℚ) : Except String RateLimiter :=
  .ok { rate := rate, max_tokens := max_tokens, tokens := (max_tokens : ℚ),
        last_refill := now }

/-- `RateLimiter._refill()` at clock `now`. -/
def refill (rl : RateLimiter) (now : ℚ) : RateLimiter :=
  let elapsed := now - rl.last_refill
  let new_tokens := elapsed * rl.rate
  { rl with tokens := min (rl.max_tokens : ℚ) (rl.tokens + new_tokens),
            last_refill := now }

/-- `RateLimiter.consume(tokens=1)` at clock `now`: refill, then deduct when
enough tokens are available. -/
def consume (rl : RateLimiter) (now : ℚ) (tokens : ℤ) : Bool × RateLimiter :=
  let rl' := refill rl now
  if (tokens : ℚ) ≤ rl'.tokens then
    (true, { rl' with tokens := rl'.tokens - (tokens : ℚ) })
  else
    (false, rl')

/-- A sequence of `consume` calls, each given as (elapsed clock since the
stored `last_refill`, tokens requested). -/
def run_consume (rl : RateLimiter) (es : List (ℚ × ℤ)) : RateLimiter :=
  es.foldl (fun s e => (consume s (s.last_refill + e.1) e.2).2) rl

end SharedUtils

/-- Whether a fallible computation produced a value. -/
def exceptOk {ε α : Type} : Except ε α → Bool
  | .ok _ => true
  | .error _ => false

namespace ApiMiddleware

/-- A sequence of `is_allowed` calls, each given as (client key, elapsed clock
since that key's stored `last_updated`; the absolute clock value is irrelevant
for an unseen key). -/
def run_is_allowed_elapsed (rl : RateLimiter) (es : List (String × ℚ)) : RateLimiter :=
  es.foldl (fun s e =>
    (is_allowed s e.1
      (match s.tokens.lookup e.1 with
       | some lv => lv.1 + e.2
       | none => e.2)).2) rl

/-- C8: `get_retry_after` leaves the limiter state unchanged and returns the
wait `(1 - tokens)/R` for one token to become available, where `R = rate/per`,
and `0` for a key never seen. -/
theorem get_retry_after_formula_and_frame (rl : RateLimiter) (client_id : String) :
    (get_retry_after rl client_id).2 = rl ∧
    (get_retry_after rl client_id).1 =
      (match rl.tokens.lookup client_id with
       | none => 0
       | some lv => (1 - lv.2) / (rl.rate / rl.per)) := by
  unfold get_retry_after
  rcases h : rl.tokens.lookup client_id with _ | ⟨last, t⟩ <;>
    simp [div_div_eq_mul_div]

/-- Counterexample to C2: with rate 1, period 1 and burst capacity C = 1, the
claim predicts results `[true, false]` for two consecutive immediate calls on
a fresh key; the code answers `true` twice, because the first call initialises
the bucket at full capacity without deducting a token. -/
theorem api_burst_claim_counterexample :
    ¬ ((run_is_allowed { rate := 1, per := 1, burst := 1, tokens := [] } "client" 0 2).1 =
        [true, false]) := by
  simp only [run_is_allowed, is_allowed, setKey, List.lookup]
  norm_num

theorem run_is_allowed_succ (rl : RateLimiter) (key : String) (now : ℚ) (n : ℕ) :
    run_is_allowed rl key now (n + 1) =
      ((is_allowed rl key now).1 :: (run_is_allowed (is_allowed rl key now).2 key now n).1,
       (run_is_allowed (is_allowed rl key now).2 key now n).2) := rfl

theorem is_allowed_fresh (rate per C now : ℚ) (key : String) :
    is_allowed { rate := rate, per := per, burst := C, tokens := [] } key now =
      (true, { rate := rate, per := per, burst := C, tokens := [(key, (now, C))] }) := rfl

theorem is_allowed_single_granted (rate per C now t : ℚ) (key : String)
    (h : 1 ≤ min C (t + (now - now) * (rate / per))) :
    is_allowed { rate := rate, per := per, burst := C, tokens := [(key, (now, t))] } key now =
      (true, { rate := rate, per := per, burst := C,
               tokens := [(key, (now, min C (t + (now - now) * (rate / per)) - 1))] }) := by
  simp only [is_allowed, List.lookup, beq_self_eq_true, setKey]
  rw [if_pos h]
  simp

theorem is_allowed_single_denied (rate per C now t : ℚ) (key : String)
    (h : ¬ (1 ≤ min C (t + (now - now) * (rate / per)))) :
    is_allowed { rate := rate, per := per, burst := C, tokens := [(key, (now, t))] } key now =
      (false, { rate := rate, per := per, burst := C,
                tokens := [(key, (now, min C (t + (now - now) * (rate / per))))] }) := by
  simp only [is_allowed, List.lookup, beq_self_eq_true, setKey]
  rw [if_neg h]
  simp

theorem api_run_consumes (rate per C now : ℚ) (key : String) :
    ∀ (n : ℕ) (t : ℚ), (n : ℚ) ≤ t → t ≤ C → t < n + 1 →
      (run_is_allowed { rate := rate, per := per, burst := C,
                        tokens := [(key, (now, t))] } key now (n + 1)).1 =
        List.replicate n true ++ [false] := by
  intro n
  induction n with
  | zero =>
    intro t h0 hC h1
    have hmin : min C (t + (now - now) * (rate / per)) = t := by
      rw [sub_self, zero_mul, add_zero]
      exact min_eq_right hC
    have hlt : ¬ (1 ≤ min C (t + (now - now) * (rate / per))) := by
      rw [hmin]; push_cast at h1; linarith
    rw [run_is_allowed_succ, is_allowed_single_denied rate per C now t key hlt]
    rfl
  | succ n ih =>
    intro t h0 hC h1
    have hmin : min C (t + (now - now) * (rate / per)) = t := by
      rw [sub_self, zero_mul, add_zero]
      exact min_eq_right hC
    have hge : 1 ≤ min C (t + (now - now) * (rate / per)) := by
      rw [hmin]; push_cast at h0; linarith
    rw [run_is_allowed_succ, is_allowed_single_granted rate per C now t key hge]
    have htail := ih (t - 1) (by push_cast at h0 ⊢; linarith)
      (by linarith) (by push_cast at h1 ⊢; linarith)
    rw [hmin]
    simp only [htail, List.replicate_succ, List.cons_append]

/-- C2 amended: for a key never seen, state is created lazily on the first
`is_allowed` call at full burst capacity `C` and that first call deducts no
token; each later allowed call consumes one token after refill, so C + 1
consecutive immediate calls return `true` and the (C+2)-th returns `false`. -/
theorem api_fresh_key_burst (C : ℕ) (hC : 1 ≤ C) (rate per now : ℚ) (key : String) :
    (is_allowed { rate := rate, per := per, burst := (C : ℚ), tokens := [] } key now).2.tokens =
        [(key, (now, (C : ℚ)))] ∧
    (run_is_allowed { rate := rate, per := per, burst := (C : ℚ), tokens := [] } key now
        (C + 2)).1 = List.replicate (C + 1) true ++ [false] := by
  constructor
  · rw [is_allowed_fresh]
  · rw [show C + 2 = (C + 1) + 1 from rfl, run_is_allowed_succ,
      is_allowed_fresh rate per (C : ℚ) now key]
    have htail := api_run_consumes rate per (C : ℚ) now key C (C : ℚ)
      (le_refl _) (le_refl _) (by norm_num)
    simp only [htail, List.replicate_succ, List.cons_append]

end ApiMiddleware

/-- Witness for C2 amended at C = 1, rate 1, period 1: the first three
immediate calls answer `true, true, false` and the first call stores the full
bucket. -/
theorem api_fresh_key_burst_witness :
    (ApiMiddleware.is_allowed { rate := 1, per := 1, burst := ((1 : ℕ) : ℚ), tokens := [] }
        "client" 0).2.tokens = [("client", (0, ((1 : ℕ) : ℚ)))] ∧
    (ApiMiddleware.run_is_allowed { rate := 1, per := 1, burst := ((1 : ℕ) : ℚ), tokens := [] }
        "client" 0 (1 + 2)).1 = List.replicate (1 + 1) true ++ [false] :=
  ApiMiddleware.api_fresh_key_burst 1 (le_refl 1) 1 1 0 "client"

theorem mem_setKey {α : Type} (k : String) (v : α) :
    ∀ (d : List (String × α)), ∀ p ∈ setKey d k v, p = (k, v) ∨ p ∈ d := by
  intro d
  induction d with
  | nil =>
    intro p hp
    simp only [setKey, List.mem_singleton] at hp
    exact Or.inl hp
  | cons hd tl ih =>
    intro p hp
    rcases hd with ⟨k', v'⟩
    simp only [setKey] at hp
    by_cases h : (k' == k) = true
    · rw [if_pos h] at hp
      rcases List.mem_cons.mp hp with h1 | h1
      · exact Or.inl h1
      · exact Or.inr (List.mem_cons_of_mem _ h1)
    · rw [if_neg h] at hp
      rcases List.mem_cons.mp hp with h1 | h1
      · exact Or.inr (h1 ▸ List.mem_cons_self _ _)
      · rcases ih p h1 with h2 | h2
        · exact Or.inl h2
        · exact Or.inr (List.mem_cons_of_mem _ h2)

theorem lookup_mem {α : Type} (k : String) (v : α) :
    ∀ (d : List (String × α)), d.lookup k = some v → (k, v) ∈ d := by
  intro d
  induction d with
  | nil => intro h; simp [List.lookup] at h
  | cons hd tl ih =>
    rcases hd with ⟨k', v'⟩
    intro h
    simp only [List.lookup] at h
    by_cases hk : (k == k') = true
    · rw [hk] at h
      simp only [] at h
      have : k = k' := eq_of_beq hk
      subst this
      cases h
      exact List.mem_cons_self _ _
    · rw [Bool.not_eq_true] at hk
      rw [hk] at h
      simp only [] at h
      exact List.mem_cons_of_mem _ (ih h)

/-- Conservation invariant for the scraper limiter: the bucket holds between
`0` and `burst_size` tokens. -/
def scraper_inv (rl : Scraper.RateLimiter) : Prop :=
  0 ≤ rl.tokens ∧ rl.tokens ≤ rl.burst_size

/-- Conservation invariant for the API middleware limiter: the configured
rate, period and burst are non-negative and every client bucket holds between
`0` and `burst` tokens. -/
def api_inv (rl : ApiMiddleware.RateLimiter) : Prop :=
  0 ≤ rl.rate ∧ 0 ≤ rl.per ∧ 0 ≤ rl.burst ∧
    ∀ p ∈ rl.tokens, 0 ≤ p.2.2 ∧ p.2.2 ≤ rl.burst

/-- Conservation invariant for the shared limiter: the refill rate is
non-negative and the bucket holds between `0` and `max_tokens` tokens. -/
def shared_inv (rl : SharedUtils.RateLimiter) : Prop :=
  0 ≤ rl.rate ∧ 0 ≤ rl.tokens ∧ rl.tokens ≤ (rl.max_tokens : ℚ)

theorem scraper_wait_inv (rl : Scraper.RateLimiter) (now : ℚ) (h : scraper_inv rl) :
    scraper_inv (Scraper.wait rl now).1 := by
  obtain ⟨h0, hC⟩ := h
  have hB : (0 : ℚ) ≤ rl.burst_size := le_trans h0 hC
  unfold Scraper.wait scraper_inv
  dsimp only
  split_ifs with hg
  · have hmin := min_le_right
      (rl.tokens + (now - rl.last_refill_time) * rl.requests_per_second) rl.burst_size
    constructor
    · simp only []
      linarith
    · simp only []
      linarith
  · exact ⟨le_refl 0, hB⟩

theorem api_is_allowed_inv (rl : ApiMiddleware.RateLimiter) (key : String) (now : ℚ)
    (hinv : api_inv rl)
    (he : ∀ lv, rl.tokens.lookup key = some lv → lv.1 ≤ now) :
    api_inv (ApiMiddleware.is_allowed rl key now).2 := by
  obtain ⟨hR, hP, hB, hall⟩ := hinv
  unfold ApiMiddleware.is_allowed
  rcases hlk : rl.tokens.lookup key with _ | ⟨last, t⟩
  · refine ⟨hR, hP, hB, ?_⟩
    intro p hp
    rcases mem_setKey key (now, rl.burst) rl.tokens p hp with h1 | h1
    · rw [h1]; exact ⟨hB, le_refl _⟩
    · exact hall p h1
  · have hmem := lookup_mem key (last, t) rl.tokens hlk
    have ht := hall (key, (last, t)) hmem
    have helapsed : (0 : ℚ) ≤ now - last := by
      have := he (last, t) hlk
      simpa using sub_nonneg.mpr this
    have hrefill : (0 : ℚ) ≤ (now - last) * (rl.rate / rl.per) :=
      mul_nonneg helapsed (div_nonneg hR hP)
    have hnew0 : (0 : ℚ) ≤ min rl.burst (t + (now - last) * (rl.rate / rl.per)) :=
      le_min hB (by have := ht.1; simp only [] at this ⊢; linarith)
    have hnewB : min rl.burst (t + (now - last) * (rl.rate / rl.per)) ≤ rl.burst :=
      min_le_left _ _
    dsimp only
    split_ifs with hg
    · refine ⟨hR, hP, hB, ?_⟩
      intro p hp
      rcases mem_setKey key (now, min rl.burst (t + (now - last) * (rl.rate / rl.per)) - 1)
          rl.tokens p hp with h1 | h1
      · rw [h1]
        exact ⟨by simp only []; linarith, by simp only []; linarith⟩
      · exact hall p h1
    · refine ⟨hR, hP, hB, ?_⟩
      intro p hp
      rcases mem_setKey key (now, min rl.burst (t + (now - last) * (rl.rate / rl.per)))
          rl.tokens p hp with h1 | h1
      · rw [h1]
        exact ⟨hnew0, hnewB⟩
      · exact hall p h1

theorem shared_consume_inv (rl : SharedUtils.RateLimiter) (e : ℚ) (n : ℤ)
    (hinv : shared_inv rl) (he : 0 ≤ e) (hn : 0 ≤ n) :
    shared_inv (SharedUtils.consume rl (rl.last_refill + e) n).2 := by
  obtain ⟨hR, h0, hM⟩ := hinv
  have hMax : (0 : ℚ) ≤ (rl.max_tokens : ℚ) := le_trans h0 hM
  have helapsed : rl.last_refill + e - rl.last_refill = e := by ring
  unfold SharedUtils.consume SharedUtils.refill shared_inv
  dsimp only
  rw [helapsed]
  have hnew0 : (0 : ℚ) ≤ min (rl.max_tokens : ℚ) (rl.tokens + e * rl.rate) :=
    le_min hMax (by have := mul_nonneg he hR; linarith)
  have hnewM : min (rl.max_tokens : ℚ) (rl.tokens + e * rl.rate) ≤ (rl.max_tokens : ℚ) :=
    min_le_left _ _
  have hn' : (0 : ℚ) ≤ (n : ℚ) := by exact_mod_cast hn
  split_ifs with hg <;> refine ⟨hR, ?_, ?_⟩ <;> dsimp only <;> linarith

/-- C4: token-bucket conservation for all three limiters — starting from a
state whose bucket lies in `[0, C]` (with non-negative configured rate fields),
any sequence of `wait` / `is_allowed` / `consume` calls with non-negative
elapsed-time refills leaves every bucket within `[0, C]`, where `C` is the
respective capacity field (`burst_size` / `burst` / `max_tokens`). -/
theorem token_bucket_conservation :
    (∀ (rl : Scraper.RateLimiter) (es : List ℚ),
        scraper_inv rl → scraper_inv (Scraper.run_wait rl es)) ∧
    (∀ (rl : ApiMiddleware.RateLimiter) (es : List (String × ℚ)),
        api_inv rl → (∀ e ∈ es, 0 ≤ e.2) →
        api_inv (ApiMiddleware.run_is_allowed_elapsed rl es)) ∧
    (∀ (rl : SharedUtils.RateLimiter) (es : List (ℚ × ℤ)),
        shared_inv rl → (∀ e ∈ es, 0 ≤ e.1 ∧ 0 ≤ e.2) →
        shared_inv (SharedUtils.run_consume rl es)) := by
  refine ⟨?_, ?_, ?_⟩
  · intro rl es
    induction es generalizing rl with
    | nil => intro h; exact h
    | cons e es ih => intro h; exact ih _ (scraper_wait_inv _ _ h)
  · intro rl es
    induction es generalizing rl with
    | nil => intro h _; exact h
    | cons e es ih =>
      intro h hes
      refine ih _ ?_ fun x hx => hes x (List.mem_cons_of_mem _ hx)
      apply api_is_allowed_inv _ _ _ h
      intro lv hlv
      rw [hlv]
      dsimp only
      have he2 : (0 : ℚ) ≤ e.2 := hes e (List.mem_cons_self e es)
      linarith
  · intro rl es
    induction es generalizing rl with
    | nil => intro h _; exact h
    | cons e es ih =>
      intro h hes
      refine ih _ ?_ fun x hx => hes x (List.mem_cons_of_mem _ hx)
      exact shared_consume_inv _ _ _ h (hes e (List.mem_cons_self e es)).1
        (hes e (List.mem_cons_self e es)).2

/-- Witness for C4: concrete two-step traces for each limiter stay within
bounds. -/
theorem token_bucket_conservation_witness :
    scraper_inv (Scraper.run_wait
      { requests_per_second := 2, burst_size := 2, tokens := 2, last_refill_time := 0 }
      [1/2, 0]) ∧
    api_inv (ApiMiddleware.run_is_allowed_elapsed
      { rate := 1, per := 1, burst := 1, tokens := [] }
      [("c", 0), ("c", 0)]) ∧
    shared_inv (SharedUtils.run_consume
      { rate := 10, max_tokens := 10, tokens := 10, last_refill := 0 }
      [(0, 1), (1, 1)]) :=
  ⟨token_bucket_conservation.1 _ _ ⟨by norm_num, by norm_num⟩,
   token_bucket_conservation.2.1 _ _
     ⟨by norm_num, by norm_num, by norm_num, by simp⟩
     (by intro x hx; fin_cases hx <;> norm_num),
   token_bucket_conservation.2.2 _ _ ⟨by norm_num, by norm_num, by norm_num⟩
     (by intro x hx; fin_cases hx <;> norm_num)⟩

/-- Counterexample to C9: all three constructors accept a non-positive rate
and a non-positive capacity and still produce a limiter instance, contradicting
the claim that construction fails fast. -/
theorem limiter_ctor_no_validation_counterexample :
    ¬ ((exceptOk (ApiMiddleware.mk_rate_limiter 0 1 0) = false) ∨
       (exceptOk (Scraper.mk_rate_limiter 0 (some 0) 0) = false) ∨
       (exceptOk (SharedUtils.mk_rate_limiter 0 0 0) = false)) := by
  simp [ApiMiddleware.mk_rate_limiter, Scraper.mk_rate_limiter,
    SharedUtils.mk_rate_limiter, exceptOk]

/-- C9 amended: none of the three constructors validates its arguments; for
every rate/period/capacity argument (in particular non-positive ones)
construction succeeds and returns an instance. -/
theorem limiter_ctor_total (r p b : ℤ) (rq : ℚ) (ob : Option ℤ) (mt : ℤ) (n1 n2 : ℚ) :
    exceptOk (ApiMiddleware.mk_rate_limiter r p b) = true ∧
    exceptOk (Scraper.mk_rate_limiter rq ob n1) = true ∧
    exceptOk (SharedUtils.mk_rate_limiter rq mt n2) = true := by
  refine ⟨rfl, ?_, rfl⟩
  unfold Scraper.mk_rate_limiter
  rfl

namespace WsManager

/-- `WebSocketManager` state: the `active_connections` dict from category to
its set of sockets (sockets as numerals, sets as duplicate-free lists) and the
`running` flag of the Kafka consumer task (the task is modelled by the flag:
`_start_kafka_consumer` sets it, `_stop_kafka_consumer` clears it). -/
structure State where
  active_connections : List (String × List ℕ)
  running : Bool

/-- `_count_connections`: total sockets over all categories. -/
def count_connections (d : List (String × List ℕ)) : ℕ :=
  (d.map fun p => p.2.length).sum

/-- The registry update of `connect`: create the category's set if missing,
then add the socket to it (a set add: no duplicate). -/
def add_conn (d : List (String × List ℕ)) (cat : String) (ws : ℕ) :
    List (String × List ℕ) :=
  match d with
  | [] => [(cat, [ws])]
  | (k, conns) :: rest =>
    if k == cat then (k, if ws ∈ conns then conns else conns ++ [ws]) :: rest
    else (k, conns) :: add_conn rest cat ws

/-- `connect(websocket, category)`: register the socket, then start the Kafka
consumer if it is not already running. -/
def connect (s : State) (ws : ℕ) (cat : String) : State :=
  { active_connections := add_conn s.active_connections cat ws,
    running := if s.running then s.running else true }

/-- The registry update of `disconnect`: discard the socket from its category
set and delete the category when the set becomes empty. -/
def disconnect_dict (d : List (String × List ℕ)) (cat : String) (ws : ℕ) :
    List (String × List ℕ) :=
  match d with
  | [] => []
  | (k, conns) :: rest =>
    if k == cat then
      (if conns.erase ws = [] then rest else (k, conns.erase ws) :: rest)
    else (k, conns) :: disconnect_dict rest cat ws

/-- `disconnect(websocket, category)`: unregister the socket, then stop the
Kafka consumer when the global connection count has returned to zero. -/
def disconnect (s : State) (ws : ℕ) (cat : String) : State :=
  let d := disconnect_dict s.active_connections cat ws
  { active_connections := d,
    running := if count_connections d = 0 then false else s.running }

/-- The registry update of `broadcast`: sockets whose `send_json` raised
(`fails w = true`) are discarded from the category's set after the send sweep.
An emptied category is not deleted and the consumer flag is not consulted. -/
def broadcast_dict (d : List (String × List ℕ)) (cat : String) (fails : ℕ → Bool) :
    List (String × List ℕ) :=
  match d with
  | [] => []
  | (k, conns) :: rest =>
    if k == cat then (k, conns.filter fun w => !(fails w)) :: rest
    else (k, conns) :: broadcast_dict rest cat fails

/-- `broadcast(message, category)`: attempt `send_json` on every socket of the
category (delivery succeeds exactly on the non-failing ones, returned as the
second component), then remove the failed sockets. -/
def broadcast (s : State) (cat : String) (fails : ℕ → Bool) : State × List ℕ :=
  match s.active_connections.lookup cat with
  | none => (s, [])
  | some conns =>
    ({ active_connections := broadcast_dict s.active_connections cat fails,
       running := s.running },
     conns.filter fun w => !(fails w))

/-- The category computed by `_kafka_consumer_loop` for a decoded message:
`"alerts"` for the alert topic, else the message's `category` field with
default `"all"`. -/
def message_category (topic : String) (value_category : Option String) : String :=
  if topic == "marketplace.alerts.triggered" then "alerts"
  else value_category.getD "all"

/-- The delivery pass of `_kafka_consumer_loop` for one decoded message:
broadcast to the computed category, then additionally to `"all"` when the
category is not already `"all"`.  Returns the final state and the registry
entries (category, socket) that received the message. -/
def consumer_loop_deliver (s : State) (topic : String) (value_category : Option String)
    (fails : ℕ → Bool) : State × List (String × ℕ) :=
  let cat := message_category topic value_category
  let r1 := broadcast s cat fails
  if cat ≠ "all" then
    let r2 := broadcast r1.1 "all" fails
    (r2.1, (r1.2.map fun w => (cat, w)) ++ (r2.2.map fun w => ("all", w)))
  else
    (r1.1, r1.2.map fun w => (cat, w))

/-- The C3 claimed invariant: the consumer task runs iff at least one
connection is registered. -/
def consumer_matches_connections (s : State) : Prop :=
  s.running = true ↔ count_connections s.active_connections ≠ 0

end WsManager

namespace WsManager

theorem count_connections_cons (k : String) (conns : List ℕ) (d : List (String × List ℕ)) :
    count_connections ((k, conns) :: d) = conns.length + count_connections d := rfl

theorem count_add_conn_ne_zero (cat : String) (ws : ℕ) :
    ∀ d : List (String × List ℕ), count_connections (add_conn d cat ws) ≠ 0 := by
  intro d
  induction d with
  | nil => simp [add_conn, count_connections]
  | cons hd rest ih =>
    rcases hd with ⟨k, conns⟩
    by_cases h : (k == cat) = true
    · simp only [add_conn, if_pos h, count_connections_cons]
      by_cases hw : ws ∈ conns
      · have hne : conns.length ≠ 0 := by
          simp only [ne_eq, List.length_eq_zero]
          exact List.ne_nil_of_mem hw
        simp only [if_pos hw]
        omega
      · simp only [if_neg hw, List.length_append, List.length_singleton]
        omega
    · simp only [add_conn, if_neg h, count_connections_cons]
      omega

theorem count_disconnect_dict_le (cat : String) (ws : ℕ) :
    ∀ d : List (String × List ℕ),
      count_connections (disconnect_dict d cat ws) ≤ count_connections d := by
  intro d
  induction d with
  | nil => simp [disconnect_dict]
  | cons hd rest ih =>
    rcases hd with ⟨k, conns⟩
    by_cases h : (k == cat) = true
    · simp only [disconnect_dict, if_pos h]
      by_cases he : conns.erase ws = []
      · simp only [if_pos he, count_connections_cons]
        omega
      · simp only [if_neg he, count_connections_cons]
        have := (List.erase_sublist ws conns).length_le
        omega
    · simp only [disconnect_dict, if_neg h, count_connections_cons]
      omega

/-- Counterexample to C3: from the empty manager, one `connect` establishes the
invariant, but a `broadcast` on which that sole socket's send fails removes it
without stopping the consumer — the consumer is left running with zero
registered connections. -/
theorem ws_consumer_invariant_counterexample :
    ¬ consumer_matches_connections
        (broadcast (connect { active_connections := [], running := false } 1 "x")
          "x" (fun _ => true)).1 := by
  simp [consumer_matches_connections, connect, broadcast, broadcast_dict, add_conn,
    count_connections, List.lookup]

/-- C3 amended: after `connect` the consumer runs and at least one connection
is registered, and `disconnect` preserves "running iff some connection
registered"; the failed-socket sweep inside `broadcast`, however, never stops
the consumer, so it can leave the consumer running with an empty registry
(see the counterexample). -/
theorem ws_consumer_runs_iff_connections :
    (∀ (s : State) (ws : ℕ) (cat : String),
        consumer_matches_connections (connect s ws cat)) ∧
    (∀ (s : State) (ws : ℕ) (cat : String),
        consumer_matches_connections s →
        consumer_matches_connections (disconnect s ws cat)) := by
  constructor
  · intro s ws cat
    unfold consumer_matches_connections connect
    have hr : (if s.running then s.running else true) = true := by
      cases h : s.running <;> simp
    simp only [hr]
    exact iff_of_true (by trivial) (count_add_conn_ne_zero cat ws s.active_connections)
  · intro s ws cat hinv
    unfold consumer_matches_connections disconnect
    dsimp only
    by_cases h0 : count_connections (disconnect_dict s.active_connections cat ws) = 0
    · simp [h0]
    · rw [if_neg h0]
      have hs : count_connections s.active_connections ≠ 0 := by
        have := count_disconnect_dict_le cat ws s.active_connections
        omega
      have : s.running = true := hinv.mpr hs
      rw [this]
      exact iff_of_true (by trivial) h0

/-- Witness for C3 amended: connect one socket to "x" (invariant holds), then
disconnect it again (invariant preserved). -/
theorem ws_consumer_runs_iff_connections_witness :
    consumer_matches_connections
      (connect { active_connections := [], running := false } 1 "x") ∧
    consumer_matches_connections
      (disconnect (connect { active_connections := [], running := false } 1 "x") 1 "x") :=
  ⟨ws_consumer_runs_iff_connections.1 { active_connections := [], running := false } 1 "x",
   ws_consumer_runs_iff_connections.2
     (connect { active_connections := [], running := false } 1 "x") 1 "x"
     (ws_consumer_runs_iff_connections.1 { active_connections := [], running := false } 1 "x")⟩

end WsManager

namespace WsManager

theorem lookup_broadcast_dict_ne (cat c : String) (fails : ℕ → Bool)
    (h : (c == cat) = false) :
    ∀ d : List (String × List ℕ), (broadcast_dict d cat fails).lookup c = d.lookup c := by
  intro d
  induction d with
  | nil => rfl
  | cons hd rest ih =>
    rcases hd with ⟨k, conns⟩
    by_cases hk : (k == cat) = true
    · have hck : (c == k) = false := by
        have hkc : k = cat := eq_of_beq hk
        subst hkc
        exact h
      simp only [broadcast_dict, if_pos hk, List.lookup, hck]
    · simp only [broadcast_dict, if_neg hk, List.lookup]
      cases hck : (c == k) <;> simp only [ih]

theorem count_filter_not_fails (fails : ℕ → Bool) (w : ℕ) (l : List ℕ) :
    (l.filter fun x => !(fails x)).count w = if fails w = true then 0 else l.count w := by
  by_cases hw : fails w = true
  · rw [if_pos hw, List.count_eq_zero]
    intro hmem
    have h2 := (List.mem_filter.mp hmem).2
    simp [hw] at h2
  · rw [if_neg hw]
    refine List.count_filter ?_
    simp only [Bool.not_eq_true] at hw
    simp [hw]

theorem count_map_pair (X c : String) (w : ℕ) (l : List ℕ) :
    ((l.map fun w' => (X, w')).count (c, w)) = if c = X then l.count w else 0 := by
  induction l with
  | nil => simp
  | cons x l ih =>
    simp only [List.map_cons, List.count_cons, ih]
    by_cases hc : c = X
    · subst hc
      by_cases hx : x = w
      · subst hx
        simp
      · simp [hx, Prod.ext_iff]
    · have hpair : ((X, x) == (c, w)) = false := by
        rw [beq_eq_false_iff_ne]
        intro hcon
        exact hc (congrArg Prod.fst hcon).symm
      simp [hpair, hc]

theorem broadcast_sent (s : State) (cat : String) (fails : ℕ → Bool) :
    (broadcast s cat fails).2 =
      ((s.active_connections.lookup cat).getD []).filter fun w => !(fails w) := by
  rcases hlk : s.active_connections.lookup cat with _ | conns <;>
    simp [broadcast, hlk]

theorem broadcast_lookup_ne (s : State) (cat c : String) (fails : ℕ → Bool)
    (h : (c == cat) = false) :
    (broadcast s cat fails).1.active_connections.lookup c =
      s.active_connections.lookup c := by
  rcases hlk : s.active_connections.lookup cat with _ | conns <;>
    simp [broadcast, hlk, lookup_broadcast_dict_ne cat c fails h]

/-- C6: a message consumed by `_kafka_consumer_loop` with computed category X
reaches a registry entry (c, w) exactly when the socket's send does not fail
and c is X or `"all"` — each such entry exactly once per occurrence in its
category set, with no duplicate when X is itself `"all"` and nothing delivered
to other categories; in the concrete scenario with one connection each on
"electronics", "all" and "furniture", an `"electronics"` message on
`listings.new` reaches exactly the first two. -/
theorem consumer_delivery_fanout :
    (∀ (s : State) (topic : String) (vcat : Option String) (fails : ℕ → Bool)
        (c : String) (w : ℕ),
      ((consumer_loop_deliver s topic vcat fails).2.count (c, w)) =
        (if (c = message_category topic vcat ∨ c = "all") ∧ fails w = false
         then ((s.active_connections.lookup c).getD []).count w
         else 0)) ∧
    (consumer_loop_deliver
        { active_connections := [("electronics", [1]), ("all", [2]), ("furniture", [3])],
          running := true }
        "marketplace.listings.new" (some "electronics") (fun _ => false)).2 =
      [("electronics", 1), ("all", 2)] := by
  constructor
  · intro s topic vcat fails c w
    simp only [consumer_loop_deliver]
    by_cases hall : message_category topic vcat = "all"
    · rw [if_neg (by simp [hall])]
      dsimp only
      rw [count_map_pair, broadcast_sent]
      by_cases hc : c = message_category topic vcat
      · rw [if_pos hc, count_filter_not_fails, hc, hall]
        by_cases hf : fails w = true
        · rw [if_pos hf, if_neg (by simp [hf])]
        · rw [if_neg hf, if_pos ⟨Or.inl rfl, by simpa using hf⟩]
      · rw [if_neg hc]
        have hca : ¬ c = "all" := fun h => hc (h.trans hall.symm)
        rw [if_neg (by rintro ⟨h1 | h2, -⟩; exact hc h1; exact hca h2)]
    · rw [if_pos (by simpa using hall)]
      dsimp only
      rw [List.count_append, count_map_pair, count_map_pair, broadcast_sent,
        broadcast_sent, broadcast_lookup_ne _ _ _ _
          (beq_eq_false_iff_ne.mpr fun h => hall h.symm)]
      by_cases hc : c = message_category topic vcat
      · have hca : ¬ c = "all" := fun h => hall (h ▸ hc).symm
        rw [if_pos hc, if_neg hca, count_filter_not_fails, hc]
        by_cases hf : fails w = true
        · rw [if_pos hf, if_neg (by simp [hf])]
        · rw [if_neg hf, if_pos ⟨Or.inl rfl, by simpa using hf⟩]
          simp
      · rw [if_neg hc]
        by_cases hca : c = "all"
        · rw [if_pos hca, count_filter_not_fails, hca]
          by_cases hf : fails w = true
          · rw [if_pos hf, if_neg (by simp [hf])]
          · rw [if_neg hf, if_pos ⟨Or.inr rfl, by simpa using hf⟩]
            simp
        · rw [if_neg hca, if_neg (by rintro ⟨h1 | h2, -⟩; exact hc h1; exact hca h2)]
  · rfl

end WsManager

namespace KafkaConsumerMgr

/-- The `MESSAGES_PROCESSED` Prometheus counter of `kafka_consumer.py`, split
by result label. -/
structure Counters where
  success : ℕ
  invalid_json : ℕ
  handler_error : ℕ

/-- One message polled by `_consume_loop`: its topic, and the JSON
deserialization outcome of its payload (`json.loads` may raise). -/
structure Message (V : Type) where
  topic : String
  value : Except String V

/-- The per-message body of `KafkaConsumerManager._consume_loop`: on a payload
that fails JSON deserialization, increment the `invalid_json` counter and skip
(no dispatch); on success, submit the value to every handler registered for
the topic (the `handlers` dict maps topic to handler names) and increment the
`success` counter.  Returns the updated counters and the (topic, handler)
submissions made. -/
def process_message {V : Type} (handlers : List (String × List String))
    (cnt : Counters) (msg : Message V) : Counters × List (String × String) :=
  match msg.value with
  | .error _ => ({ cnt with invalid_json := cnt.invalid_json + 1 }, [])
  | .ok _ =>
    let hs := (handlers.lookup msg.topic).getD []
    ({ cnt with success := cnt.success + 1 }, hs.map fun h => (msg.topic, h))

/-- `_consume_loop` over a finite poll sequence: every message is processed in
order (a deserialization failure never terminates the loop). -/
def consume_loop {V : Type} (handlers : List (String × List String))
    (cnt : Counters) (msgs : List (Message V)) : Counters × List (String × String) :=
  match msgs with
  | [] => (cnt, [])
  | m :: rest =>
    let r := process_message handlers cnt m
    let r' := consume_loop handlers r.1 rest
    (r'.1, r.2 ++ r'.2)

/-- C7: a payload failing JSON deserialization increments the invalid-message
counter by exactly one and is skipped without any handler dispatch, the loop
keeps running, and a subsequent valid message on the same topic is still
dispatched to all of that topic's registered handlers. -/
theorem invalid_json_counted_skipped_loop_continues {V : Type}
    (handlers : List (String × List String)) (cnt : Counters)
    (topic : String) (e : String) (v : V) :
    process_message handlers cnt ({ topic := topic, value := .error e } : Message V) =
      ({ cnt with invalid_json := cnt.invalid_json + 1 }, []) ∧
    consume_loop handlers cnt
        [({ topic := topic, value := .error e } : Message V), { topic := topic, value := .ok v }] =
      ({ success := cnt.success + 1, invalid_json := cnt.invalid_json + 1,
         handler_error := cnt.handler_error },
       ((handlers.lookup topic).getD []).map fun h => (topic, h)) := by
  constructor
  · rfl
  · simp [consume_loop, process_message]

end KafkaConsumerMgr
